import Mathlib

/-!
Verification of `rate_limit` from
`DevContainerTemplates/codebox/api-tools/helpers/timeout_helper.py`.

The Python function is

    def rate_limit(max_requests_per_minute: int, last_request_time: float = 0) -> float:
        min_interval = 60.0 / max_requests_per_minute
        elapsed = time.time() - last_request_time
        if elapsed < min_interval:
            time.sleep(min_interval - elapsed)
        return time.time()

We embed it shallowly over the rationals.  The interaction with the
environment is made explicit through two extra parameters:

* `now`   — the value returned by the first `time.time()` call;
* `drift` — the extra wall-clock time (beyond the requested sleep
  duration) that elapses between the first and the final `time.time()`
  read.  A real clock is monotone and `time.sleep(d)` with `d > 0`
  suspends for at least `d` seconds, so `drift ≥ 0`; the final read is
  `now + sleep + drift` on the sleeping path and `now + drift` otherwise.

The result records the list of durations passed to `time.sleep` together
with the outcome: Python raises `ZeroDivisionError` when evaluating
`60.0 / max_requests_per_minute` with a zero ceiling, and returns the
final clock reading otherwise.
-/

namespace TimeoutHelper

/-- Errors the Python function can raise: division of `60.0` by a zero
ceiling raises `ZeroDivisionError`. -/
inductive PyError
  | zeroDivisionError
deriving DecidableEq, Repr

/-- Local value `min_interval = 60.0 / max_requests_per_minute` computed
by `rate_limit` (source line 25). -/
def min_interval (max_requests_per_minute : ℚ) : ℚ :=
  60 / max_requests_per_minute

/-- Shallow embedding of `rate_limit` (source lines 25–31).  The local
`elapsed = time.time() - last_request_time` appears inline as
`now - last_request_time`.  The first component of the result is the
list of durations passed to `time.sleep`; the second is the error or
the returned final clock reading. -/
def rate_limit (max_requests_per_minute last_request_time now drift : ℚ) :
    List ℚ × Except PyError ℚ :=
  if max_requests_per_minute = 0 then
    ([], Except.error PyError.zeroDivisionError)
  else if now - last_request_time < min_interval max_requests_per_minute then
    ([min_interval max_requests_per_minute - (now - last_request_time)],
      Except.ok (now + (min_interval max_requests_per_minute - (now - last_request_time)) + drift))
  else
    ([], Except.ok (now + drift))

/-- Returned timestamp of a `rate_limit` result, defaulting to `0` on the
error outcome (which a positive ceiling never produces). -/
def retOrZero (r : List ℚ × Except PyError ℚ) : ℚ :=
  match r.2 with
  | Except.ok t => t
  | Except.error _ => 0

/-- The docstring usage loop (source lines 19–23): starting from
`last_request_time = t0`, each call feeds its return value back as the
next call's `last_request_time`.  `now n` and `drift n` are the clock
parameters of the `n`-th call; `rate_limit_loop R t0 now drift n` is the
value of `last_time` after `n` calls. -/
def rate_limit_loop (R t0 : ℚ) (now drift : ℕ → ℚ) : ℕ → ℚ
  | 0 => t0
  | n + 1 =>
      retOrZero (rate_limit R (rate_limit_loop R t0 now drift n) (now n) (drift n))

/-- Helper: with a nonzero ceiling and elapsed time below the minimum
interval, `rate_limit` sleeps once and returns the post-sleep reading. -/
lemma rate_limit_eq_of_lt (R t0 now drift : ℚ) (hR : R ≠ 0)
    (h : now - t0 < min_interval R) :
    rate_limit R t0 now drift =
      ([min_interval R - (now - t0)],
        Except.ok (now + (min_interval R - (now - t0)) + drift)) := by
  unfold rate_limit
  rw [if_neg hR, if_pos h]

/-- Helper: with a nonzero ceiling and elapsed time at least the minimum
interval, `rate_limit` does not sleep and returns the second reading. -/
lemma rate_limit_eq_of_le (R t0 now drift : ℚ) (hR : R ≠ 0)
    (h : min_interval R ≤ now - t0) :
    rate_limit R t0 now drift = ([], Except.ok (now + drift)) := by
  unfold rate_limit
  rw [if_neg hR, if_neg (not_lt.mpr h)]

/-- Helper: whatever the branch, a nonzero ceiling makes each step of the
feedback loop advance the timestamp by at least `min_interval R`. -/
lemma retOrZero_rate_limit_ge (R t0 now drift : ℚ) (hR : R ≠ 0)
    (hd : 0 ≤ drift) :
    t0 + min_interval R ≤ retOrZero (rate_limit R t0 now drift) := by
  by_cases h : now - t0 < min_interval R
  · rw [rate_limit_eq_of_lt R t0 now drift hR h]
    unfold retOrZero
    simp only
    linarith
  · rw [rate_limit_eq_of_le R t0 now drift hR (not_lt.mp h)]
    unfold retOrZero
    simp only
    linarith [not_lt.mp h]

/-- C1 counterexample: with the negative ceiling `-60` (and clock reading
`100`), `rate_limit` raises no error at all — it succeeds with no sleep —
contradicting the claim that every `max_requests_per_minute ≤ 0` raises
`InvalidArgument`. -/
theorem rate_limit_neg_ceiling_no_error :
    rate_limit (-60) 0 100 0 = ([], Except.ok 100) := by
  norm_num [rate_limit, min_interval]

/-- C1 (amended): `rate_limit` errors exactly when the ceiling is zero —
the error is Python's `ZeroDivisionError`, raised by the division before
any sleep (the sleep list on the error path is empty) — and every nonzero
ceiling, negative ones included, succeeds. -/
theorem rate_limit_error_char (R t0 now drift : ℚ) :
    (rate_limit R t0 now drift = ([], Except.error PyError.zeroDivisionError) ↔ R = 0) ∧
    (R ≠ 0 → ∃ t, (rate_limit R t0 now drift).2 = Except.ok t) := by
  constructor
  · constructor
    · intro h
      by_contra hR
      by_cases hlt : now - t0 < min_interval R
      · rw [rate_limit_eq_of_lt R t0 now drift hR hlt] at h
        exact absurd (congrArg Prod.snd h) (by simp)
      · rw [rate_limit_eq_of_le R t0 now drift hR (not_lt.mp hlt)] at h
        exact absurd (congrArg Prod.snd h) (by simp)
    · intro h
      unfold rate_limit
      rw [if_pos h]
  · intro hR
    by_cases hlt : now - t0 < min_interval R
    · rw [rate_limit_eq_of_lt R t0 now drift hR hlt]
      exact ⟨_, rfl⟩
    · rw [rate_limit_eq_of_le R t0 now drift hR (not_lt.mp hlt)]
      exact ⟨_, rfl⟩

/-- C1 witness: the amended theorem applied at the concrete nonzero
ceiling `-60`. -/
theorem rate_limit_error_char_witness :
    ∃ t, (rate_limit (-60) 0 100 0).2 = Except.ok t :=
  (rate_limit_error_char (-60) 0 100 0).2 (by norm_num)

/-- C2: with a positive ceiling `R` and `now - t0 < 60/R`, `rate_limit`
sleeps exactly once, for `60/R - (now - t0)` seconds, and the returned
timestamp `t0 + 60/R + drift` is at least `t0 + 60/R`. -/
theorem rate_limit_sleep_case (R t0 now drift : ℚ) (hR : 0 < R)
    (h : now - t0 < 60 / R) (hd : 0 ≤ drift) :
    rate_limit R t0 now drift =
      ([60 / R - (now - t0)], Except.ok (t0 + 60 / R + drift)) ∧
    t0 + 60 / R ≤ t0 + 60 / R + drift := by
  have hR0 : R ≠ 0 := ne_of_gt hR
  have heq := rate_limit_eq_of_lt R t0 now drift hR0 (by rwa [min_interval])
  rw [min_interval] at heq
  constructor
  · rw [heq]
    congr 2
    ring
  · linarith

/-- C2 witness: ceiling `60`, previous call at `0`, clock at `1/2`. -/
theorem rate_limit_sleep_case_witness :
    (rate_limit 60 0 (1 / 2) 0 =
      ([60 / 60 - ((1 : ℚ) / 2 - 0)], Except.ok (0 + 60 / 60 + 0)) ∧
    (0 : ℚ) + 60 / 60 ≤ 0 + 60 / 60 + 0) :=
  rate_limit_sleep_case 60 0 (1 / 2) 0 (by norm_num) (by norm_num) (by norm_num)

/-- C3: with a positive ceiling `R` and `now - t0 ≥ 60/R`, `rate_limit`
performs no sleep and returns the second clock reading `now + drift`,
which is at least `now`. -/
theorem rate_limit_no_wait (R t0 now drift : ℚ) (hR : 0 < R)
    (h : 60 / R ≤ now - t0) (hd : 0 ≤ drift) :
    rate_limit R t0 now drift = ([], Except.ok (now + drift)) ∧
    now ≤ now + drift := by
  have hR0 : R ≠ 0 := ne_of_gt hR
  exact ⟨rate_limit_eq_of_le R t0 now drift hR0 (by rwa [min_interval]), by linarith⟩

/-- C3 witness: the spec's example — ceiling `120`, previous call five
seconds ago. -/
theorem rate_limit_no_wait_witness :
    (rate_limit 120 0 5 0 = ([], Except.ok (5 + 0)) ∧ (5 : ℚ) ≤ 5 + 0) :=
  rate_limit_no_wait 120 0 5 0 (by norm_num) (by norm_num) (by norm_num)

/-- C4: with a positive ceiling `R`, feeding each call's return value back
as the next call's `last_request_time` spaces consecutive returned
timestamps by at least `60/R` seconds, and after `N` further calls the
timestamp has advanced by at least `N * 60/R` past the first return — so a
loop of `N + 1` calls spans at least `N * 60/R` seconds of wall clock. -/
theorem rate_limit_loop_spacing (R t0 : ℚ) (now drift : ℕ → ℚ) (hR : 0 < R)
    (hd : ∀ n, 0 ≤ drift n) :
    (∀ n, rate_limit_loop R t0 now drift n + 60 / R ≤
        rate_limit_loop R t0 now drift (n + 1)) ∧
    (∀ N : ℕ, rate_limit_loop R t0 now drift 1 + N * (60 / R) ≤
        rate_limit_loop R t0 now drift (N + 1)) := by
  have hR0 : R ≠ 0 := ne_of_gt hR
  have step : ∀ n, rate_limit_loop R t0 now drift n + 60 / R ≤
      rate_limit_loop R t0 now drift (n + 1) := by
    intro n
    have h := retOrZero_rate_limit_ge R (rate_limit_loop R t0 now drift n)
      (now n) (drift n) hR0 (hd n)
    rw [min_interval] at h
    exact h
  refine ⟨step, ?_⟩
  intro N
  induction N with
  | zero => simp
  | succ N ih =>
      have h := step (N + 1)
      push_cast
      push_cast at ih
      linarith

/-- C4 witness: ceiling `60`, clock frozen at `0` with no drift — the
second return is at least one second after the first. -/
theorem rate_limit_loop_spacing_witness :
    rate_limit_loop 60 0 (fun _ => 0) (fun _ => 0) 1 + 60 / 60 ≤
      rate_limit_loop 60 0 (fun _ => 0) (fun _ => 0) (1 + 1) :=
  (rate_limit_loop_spacing 60 0 (fun _ => 0) (fun _ => 0) (by norm_num)
    (fun _ => le_refl 0)).1 1

/-- C5: the minimum inter-call interval computed by `rate_limit` is
`60 / max_requests_per_minute`; for ceiling `60` it is exactly one
second, and a back-to-back second call (previous timestamp equal to the
current clock) blocks exactly one second. -/
theorem min_interval_spec :
    (∀ R : ℚ, min_interval R = 60 / R) ∧ min_interval 60 = 1 ∧
    ∀ t : ℚ, rate_limit 60 t t 0 = ([1], Except.ok (t + 1)) := by
  refine ⟨fun R => rfl, by norm_num [min_interval], fun t => ?_⟩
  have heq := rate_limit_eq_of_lt 60 t t 0 (by norm_num)
    (by norm_num [min_interval])
  rw [heq]
  norm_num [min_interval]

/-- C6 counterexample: ceiling `60` with sentinel `last_request_time = 0`
but a clock reading of `1/2` (below `min_interval = 1`) does sleep — for
half a second — contradicting "never triggers a wait regardless of the
current clock value". -/
theorem rate_limit_first_call_wait_cex :
    rate_limit 60 0 (1 / 2) 0 = ([1 / 2], Except.ok 1) ∧
    (rate_limit 60 0 (1 / 2) 0).1 ≠ [] := by
  norm_num [rate_limit, min_interval]

/-- C6 (amended): with a positive ceiling `R` and sentinel
`last_request_time = 0`, no wait occurs provided the current clock value
is at least `60/R` — as it is for any realistic epoch-based clock. -/
theorem rate_limit_first_call_no_wait (R now drift : ℚ) (hR : 0 < R)
    (hnow : 60 / R ≤ now) :
    rate_limit R 0 now drift = ([], Except.ok (now + drift)) := by
  apply rate_limit_eq_of_le R 0 now drift (ne_of_gt hR)
  rw [min_interval]
  linarith

/-- C6 witness: ceiling `60` at a realistic clock reading of `10 ^ 9`
seconds since the epoch. -/
theorem rate_limit_first_call_no_wait_witness :
    rate_limit 60 0 1000000000 0 = ([], Except.ok (1000000000 + 0)) :=
  rate_limit_first_call_no_wait 60 1000000000 0 (by norm_num) (by norm_num)

/-- C7: `rate_limit` is deterministic relative to its environment — two
runs with equal arguments and equal clock readings (and the same sleep
behaviour, captured by `drift`) produce equal results; the embedding is a
total function of exactly these four inputs, so no other state is read or
written. -/
theorem rate_limit_deterministic (R t0 now drift R2 t02 now2 drift2 : ℚ)
    (h1 : R = R2) (h2 : t0 = t02) (h3 : now = now2) (h4 : drift = drift2) :
    rate_limit R t0 now drift = rate_limit R2 t02 now2 drift2 := by
  subst h1
  subst h2
  subst h3
  subst h4
  rfl

/-- C7 witness: two identical runs at ceiling `90`. -/
theorem rate_limit_deterministic_witness :
    rate_limit 90 0 1 0 = rate_limit 90 0 1 0 :=
  rate_limit_deterministic 90 0 1 0 90 0 1 0 rfl rfl rfl rfl

/-- C8: with a negative ceiling and a non-future previous timestamp,
`rate_limit` raises no error, performs no sleep (the interval `60/R` is
negative while `elapsed ≥ 0`), and returns the current clock reading. -/
theorem rate_limit_negative_ceiling (R t0 now drift : ℚ) (hR : R < 0)
    (h : t0 ≤ now) :
    rate_limit R t0 now drift = ([], Except.ok (now + drift)) := by
  apply rate_limit_eq_of_le R t0 now drift (ne_of_lt hR)
  rw [min_interval]
  have hneg : (60 : ℚ) / R < 0 := div_neg_of_pos_of_neg (by norm_num) hR
  linarith

/-- C8 witness: ceiling `-1`, previous call at `0`, clock at `5`. -/
theorem rate_limit_negative_ceiling_witness :
    rate_limit (-1) 0 5 0 = ([], Except.ok (5 + 0)) :=
  rate_limit_negative_ceiling (-1) 0 5 0 (by norm_num) (by norm_num)

/-- C9: with a positive ceiling `R` and a future `last_request_time`
(`now < t0`), `rate_limit` sleeps for `60/R + (t0 - now)` seconds —
strictly longer than the minimum interval — and returns a timestamp of at
least `t0 + 60/R`. -/
theorem rate_limit_future_timestamp (R t0 now drift : ℚ) (hR : 0 < R)
    (h : now < t0) (hd : 0 ≤ drift) :
    rate_limit R t0 now drift =
      ([60 / R + (t0 - now)], Except.ok (t0 + 60 / R + drift)) ∧
    60 / R < 60 / R + (t0 - now) ∧
    t0 + 60 / R ≤ t0 + 60 / R + drift := by
  have hmi : 0 < min_interval R := by
    rw [min_interval]
    exact div_pos (by norm_num) hR
  have hlt : now - t0 < min_interval R := by linarith
  have heq := rate_limit_eq_of_lt R t0 now drift (ne_of_gt hR) hlt
  rw [min_interval] at heq
  have e2 : now + (60 / R - (now - t0)) + drift = t0 + 60 / R + drift := by
    ring
  have e1 : 60 / R - (now - t0) = 60 / R + (t0 - now) := by ring
  rw [e2, e1] at heq
  exact ⟨heq, by linarith, by linarith⟩

/-- C9 witness: ceiling `60`, previous timestamp `10`, clock at `9` — the
sleep is two seconds, one more than the minimum interval. -/
theorem rate_limit_future_timestamp_witness :
    (rate_limit 60 10 9 0 =
      ([60 / 60 + ((10 : ℚ) - 9)], Except.ok (10 + 60 / 60 + 0)) ∧
    (60 : ℚ) / 60 < 60 / 60 + (10 - 9) ∧
    (10 : ℚ) + 60 / 60 ≤ 10 + 60 / 60 + 0) :=
  rate_limit_future_timestamp 60 10 9 0 (by norm_num) (by norm_num)
    (by norm_num)

/-- C10: every duration `rate_limit` passes to `time.sleep` is strictly
positive, for all inputs — negative ceilings and future timestamps
included — because the guard `elapsed < min_interval` is exactly the
positivity of `min_interval - elapsed`. -/
theorem rate_limit_sleep_pos (R t0 now drift d : ℚ)
    (hd : d ∈ (rate_limit R t0 now drift).1) : 0 < d := by
  unfold rate_limit at hd
  by_cases hR : R = 0
  · rw [if_pos hR] at hd
    simp at hd
  · rw [if_neg hR] at hd
    by_cases hlt : now - t0 < min_interval R
    · rw [if_pos hlt] at hd
      simp only [List.mem_singleton] at hd
      subst hd
      linarith
    · rw [if_neg hlt] at hd
      simp at hd

/-- C10 witness: the half-second sleep triggered at ceiling `60`, sentinel
timestamp, clock at `1/2` is positive. -/
theorem rate_limit_sleep_pos_witness : (0 : ℚ) < 1 / 2 :=
  rate_limit_sleep_pos 60 0 (1 / 2) 0 (1 / 2)
    (by norm_num [rate_limit, min_interval])

end TimeoutHelper
